import Mathlib

/-!
Shallow embedding of the differentiable-composition core of the
space-time-functions library: the fixed-size 2D/3D linear-algebra kernel
(`maths_2d.h`, `maths_3d.h`), the frame-propagating curve transforms
(`polyline.h`, `polybezier.h`), the smooth-minimum union operators
(`implicit_union.h`, `union_function.h`), and the composition operators
(`compose.h`, `sweep_function.h`, `offset_function.h`).

C++ `Scalar` (= `double`) is modelled by the real numbers; code that can
throw (`std::runtime_error` / `std::invalid_argument`) is modelled in the
`Except String` monad, and a C++ `operator[]` read that may be out of
range is modelled by `List.get?` with an explicit error on `none`.
-/

noncomputable section

abbrev Scalar := ℝ

/-- 3D vector (`Vec3 = std::array<Scalar, 3>` from `maths_3d.h`). -/
@[ext]
structure Vec3 where
  x : Scalar
  y : Scalar
  z : Scalar

/-- Row-major 3x3 matrix (`Mat3 = std::array<std::array<Scalar, 3>, 3>`);
`r0`, `r1`, `r2` are the rows, and entry `M[i][j]` is column `j` (fields
`x`/`y`/`z`) of row `i`. -/
@[ext]
structure Mat3 where
  r0 : Vec3
  r1 : Vec3
  r2 : Vec3

/-- Bounds-checked read of `v[j]` for a `std::array<Scalar, 3>`. -/
def vec3Entry (v : Vec3) : ℕ → Option Scalar
  | 0 => some v.x
  | 1 => some v.y
  | 2 => some v.z
  | _ => none

/-- `dot` from `maths_3d.h`. -/
def dot3 (a b : Vec3) : Scalar :=
  a.x * b.x + a.y * b.y + a.z * b.z

/-- `cross` from `maths_3d.h`. -/
def cross3 (a b : Vec3) : Vec3 :=
  ⟨a.y * b.z - a.z * b.y, a.z * b.x - a.x * b.z, a.x * b.y - a.y * b.x⟩

/-- `norm` from `maths_3d.h`. -/
def norm3 (v : Vec3) : Scalar :=
  Real.sqrt (dot3 v v)

/-- `normalize` from `maths_3d.h`: throws "Zero-length vector" when the
norm is below `1e-8`. -/
def normalize3 (v : Vec3) : Except String Vec3 :=
  if norm3 v < 1e-8 then Except.error "Zero-length vector"
  else Except.ok ⟨v.x / norm3 v, v.y / norm3 v, v.z / norm3 v⟩

/-- `identityMatrix` from `maths_3d.h`. -/
def identityMatrix3 : Mat3 :=
  ⟨⟨1, 0, 0⟩, ⟨0, 1, 0⟩, ⟨0, 0, 1⟩⟩

/-- `skew` from `maths_3d.h`. -/
def skew3 (v : Vec3) : Mat3 :=
  ⟨⟨0, -v.z, v.y⟩, ⟨v.z, 0, -v.x⟩, ⟨-v.y, v.x, 0⟩⟩

/-- Matrix addition `add` from `maths_3d.h`. -/
def addMat3 (A B : Mat3) : Mat3 :=
  ⟨⟨A.r0.x + B.r0.x, A.r0.y + B.r0.y, A.r0.z + B.r0.z⟩,
   ⟨A.r1.x + B.r1.x, A.r1.y + B.r1.y, A.r1.z + B.r1.z⟩,
   ⟨A.r2.x + B.r2.x, A.r2.y + B.r2.y, A.r2.z + B.r2.z⟩⟩

/-- Scalar-matrix product `scale` from `maths_3d.h`. -/
def scaleMat3 (A : Mat3) (s : Scalar) : Mat3 :=
  ⟨⟨A.r0.x * s, A.r0.y * s, A.r0.z * s⟩,
   ⟨A.r1.x * s, A.r1.y * s, A.r1.z * s⟩,
   ⟨A.r2.x * s, A.r2.y * s, A.r2.z * s⟩⟩

/-- Column `j = 0` of a `Mat3`. -/
def col0 (M : Mat3) : Vec3 := ⟨M.r0.x, M.r1.x, M.r2.x⟩

/-- Column `j = 1` of a `Mat3`. -/
def col1 (M : Mat3) : Vec3 := ⟨M.r0.y, M.r1.y, M.r2.y⟩

/-- Column `j = 2` of a `Mat3`. -/
def col2 (M : Mat3) : Vec3 := ⟨M.r0.z, M.r1.z, M.r2.z⟩

/-- Matrix product `multiply` from `maths_3d.h`:
`result[i][j] = sum_k A[i][k] * B[k][j]`. -/
def multiply3 (A B : Mat3) : Mat3 :=
  ⟨⟨dot3 A.r0 (col0 B), dot3 A.r0 (col1 B), dot3 A.r0 (col2 B)⟩,
   ⟨dot3 A.r1 (col0 B), dot3 A.r1 (col1 B), dot3 A.r1 (col2 B)⟩,
   ⟨dot3 A.r2 (col0 B), dot3 A.r2 (col1 B), dot3 A.r2 (col2 B)⟩⟩

/-- `rotation_matrix` from `maths_3d.h` (Rodrigues' formula, with the
near-parallel and near-antiparallel special cases). In the antiparallel
branch the source computes `KK = K * K` but the returned matrix is
`I + 2 K` (the `KK` value is unused there). -/
def rotation_matrix3 (vfrom vto : Vec3) : Except String Mat3 :=
  match normalize3 vfrom with
  | Except.error e => Except.error e
  | Except.ok v1 =>
    match normalize3 vto with
    | Except.error e => Except.error e
    | Except.ok v2 =>
      let c := dot3 v1 v2
      if c > 0.999999 then Except.ok identityMatrix3
      else if c < -0.999999 then
        let axis0 := cross3 v1 ⟨1, 0, 0⟩
        let axis1 := if norm3 axis0 < 1e-6 then cross3 v1 ⟨0, 1, 0⟩ else axis0
        match normalize3 axis1 with
        | Except.error e => Except.error e
        | Except.ok axis =>
          let K := skew3 axis
          Except.ok (addMat3 identityMatrix3 (scaleMat3 K 2))
      else
        match normalize3 (cross3 v1 v2) with
        | Except.error e => Except.error e
        | Except.ok axis =>
          let s := Real.sqrt (1 - c * c)
          let K := skew3 axis
          let KK := multiply3 K K
          Except.ok (addMat3 (addMat3 identityMatrix3 (scaleMat3 K s)) (scaleMat3 KK (1 - c)))

/-- `apply_matrix` from `maths_3d.h`. -/
def apply_matrix3 (M : Mat3) (v : Vec3) : Vec3 :=
  ⟨M.r0.x * v.x + M.r0.y * v.y + M.r0.z * v.z,
   M.r1.x * v.x + M.r1.y * v.y + M.r1.z * v.z,
   M.r2.x * v.x + M.r2.y * v.y + M.r2.z * v.z⟩

/-- `transpose` from `maths_3d.h`. -/
def transpose3 (M : Mat3) : Mat3 :=
  ⟨⟨M.r0.x, M.r1.x, M.r2.x⟩, ⟨M.r0.y, M.r1.y, M.r2.y⟩, ⟨M.r0.z, M.r1.z, M.r2.z⟩⟩

/-- Cubic Bezier point `bezier` from `maths_3d.h` (the four control points
of the `std::span` are passed individually). -/
def bezier3 (p0 p1 p2 p3 : Vec3) (t : Scalar) : Vec3 :=
  let u := 1 - t
  let uu := u * u
  let tt := t * t
  let uuu := uu * u
  let uut := uu * t
  let utt := u * tt
  let ttt := tt * t
  ⟨uuu * p0.x + 3 * uut * p1.x + 3 * utt * p2.x + ttt * p3.x,
   uuu * p0.y + 3 * uut * p1.y + 3 * utt * p2.y + ttt * p3.y,
   uuu * p0.z + 3 * uut * p1.z + 3 * utt * p2.z + ttt * p3.z⟩

/-- `bezier_derivative` from `maths_3d.h`. -/
def bezier_derivative3 (p0 p1 p2 p3 : Vec3) (t : Scalar) : Vec3 :=
  let u := 1 - t
  let uu := u * u
  let tt := t * t
  ⟨3 * uu * (p1.x - p0.x) + 6 * u * t * (p2.x - p1.x) + 3 * tt * (p3.x - p2.x),
   3 * uu * (p1.y - p0.y) + 6 * u * t * (p2.y - p1.y) + 3 * tt * (p3.y - p2.y),
   3 * uu * (p1.z - p0.z) + 6 * u * t * (p2.z - p1.z) + 3 * tt * (p3.z - p2.z)⟩

/-- `bezier_second_derivative` from `maths_3d.h`. -/
def bezier_second_derivative3 (p0 p1 p2 p3 : Vec3) (t : Scalar) : Vec3 :=
  let u := 1 - t
  ⟨6 * u * (p2.x - 2 * p1.x + p0.x) + 6 * t * (p3.x - 2 * p2.x + p1.x),
   6 * u * (p2.y - 2 * p1.y + p0.y) + 6 * t * (p3.y - 2 * p2.y + p1.y),
   6 * u * (p2.z - 2 * p1.z + p0.z) + 6 * t * (p3.z - 2 * p2.z + p1.z)⟩

/-- 2D vector (`Vec2 = std::array<Scalar, 2>` from `maths_2d.h`). -/
@[ext]
structure Vec2 where
  x : Scalar
  y : Scalar

/-- Row-major 2x2 matrix (`Mat2` from `maths_2d.h`). -/
@[ext]
structure Mat2 where
  r0 : Vec2
  r1 : Vec2

/-- Bounds-checked read of `v[j]` for a `std::array<Scalar, 2>`. -/
def vec2Entry (v : Vec2) : ℕ → Option Scalar
  | 0 => some v.x
  | 1 => some v.y
  | _ => none

/-- `dot` from `maths_2d.h`. -/
def dot2 (a b : Vec2) : Scalar :=
  a.x * b.x + a.y * b.y

/-- `norm` from `maths_2d.h`. -/
def norm2 (v : Vec2) : Scalar :=
  Real.sqrt (dot2 v v)

/-- `normalize` from `maths_2d.h`. -/
def normalize2 (v : Vec2) : Except String Vec2 :=
  if norm2 v < 1e-8 then Except.error "Zero-length vector"
  else Except.ok ⟨v.x / norm2 v, v.y / norm2 v⟩

/-- `multiply` from `maths_2d.h`. -/
def multiply2 (A B : Mat2) : Mat2 :=
  ⟨⟨A.r0.x * B.r0.x + A.r0.y * B.r1.x, A.r0.x * B.r0.y + A.r0.y * B.r1.y⟩,
   ⟨A.r1.x * B.r0.x + A.r1.y * B.r1.x, A.r1.x * B.r0.y + A.r1.y * B.r1.y⟩⟩

/-- `rotation_matrix` from `maths_2d.h`. -/
def rotation_matrix2 (vfrom vto : Vec2) : Except String Mat2 :=
  match normalize2 vfrom with
  | Except.error e => Except.error e
  | Except.ok u =>
    match normalize2 vto with
    | Except.error e => Except.error e
    | Except.ok v =>
      let c := dot2 u v
      let s := u.x * v.y - u.y * v.x
      Except.ok ⟨⟨c, -s⟩, ⟨s, c⟩⟩

/-- `apply_matrix` from `maths_2d.h`. -/
def apply_matrix2 (M : Mat2) (v : Vec2) : Vec2 :=
  ⟨M.r0.x * v.x + M.r0.y * v.y, M.r1.x * v.x + M.r1.y * v.y⟩

/-- `transpose` from `maths_2d.h`. -/
def transpose2 (M : Mat2) : Mat2 :=
  ⟨⟨M.r0.x, M.r1.x⟩, ⟨M.r0.y, M.r1.y⟩⟩

/-- `bezier` from `maths_2d.h`. -/
def bezier2 (p0 p1 p2 p3 : Vec2) (t : Scalar) : Vec2 :=
  let u := 1 - t
  ⟨u * u * u * p0.x + 3 * u * u * t * p1.x + 3 * u * t * t * p2.x + t * t * t * p3.x,
   u * u * u * p0.y + 3 * u * u * t * p1.y + 3 * u * t * t * p2.y + t * t * t * p3.y⟩

/-- `bezier_derivative` from `maths_2d.h`. -/
def bezier_derivative2 (p0 p1 p2 p3 : Vec2) (t : Scalar) : Vec2 :=
  let u := 1 - t
  let uu := u * u
  let tt := t * t
  ⟨3 * uu * (p1.x - p0.x) + 6 * u * t * (p2.x - p1.x) + 3 * tt * (p3.x - p2.x),
   3 * uu * (p1.y - p0.y) + 6 * u * t * (p2.y - p1.y) + 3 * tt * (p3.y - p2.y)⟩

/-- `bezier_second_derivative` from `maths_2d.h`. -/
def bezier_second_derivative2 (p0 p1 p2 p3 : Vec2) (t : Scalar) : Vec2 :=
  let u := 1 - t
  ⟨6 * u * (p2.x - 2 * p1.x + p0.x) + 6 * t * (p3.x - 2 * p2.x + p1.x),
   6 * u * (p2.y - 2 * p1.y + p0.y) + 6 * t * (p3.y - 2 * p2.y + p1.y)⟩

/-- One step list of the Bishop-frame recurrence shared by
`Polyline::initialize_bishop_frames` and
`PolyBezier::initialize_bishop_frames` (3D): walk the successive
`to_vector`s, multiplying each `rotation_matrix(from, to)` onto the
previous frame (`m_frames.back()`), with the first frame pushed without a
predecessor (`m_frames.empty()` case). -/
def bishopLoop3 : Vec3 → List Vec3 → Option Mat3 → Except String (List Mat3)
  | _, [], _ => Except.ok []
  | fromVec, toVec :: rest, none =>
    match rotation_matrix3 fromVec toVec with
    | Except.error e => Except.error e
    | Except.ok R =>
      match bishopLoop3 toVec rest (some R) with
      | Except.error e => Except.error e
      | Except.ok fs => Except.ok (R :: fs)
  | fromVec, toVec :: rest, some back =>
    match rotation_matrix3 fromVec toVec with
    | Except.error e => Except.error e
    | Except.ok R =>
      let f := multiply3 R back
      match bishopLoop3 toVec rest (some f) with
      | Except.error e => Except.error e
      | Except.ok fs => Except.ok (f :: fs)

/-- Successive segment vectors `p1 - p0` of a point list (the `to_vector`
values of `Polyline<3>::initialize_bishop_frames`). -/
def segVecs3 : List Vec3 → List Vec3
  | p0 :: p1 :: rest => ⟨p1.x - p0.x, p1.y - p0.y, p1.z - p0.z⟩ :: segVecs3 (p1 :: rest)
  | _ => []

/-- State of a constructed `Polyline<3>` (`polyline.h`): the point list,
the per-segment frames, and the `m_follow_tangent` flag. -/
structure Polyline3 where
  points : List Vec3
  frames : List Mat3
  followTangent : Bool

/-- `Polyline<3>::Polyline` (`polyline.h`): throws when fewer than 2
points are given, then precomputes Bishop frames (or identity frames when
`follow_tangent` is false). -/
def Polyline3.make (pts : List Vec3) (followTangent : Bool) : Except String Polyline3 :=
  if pts.length < 2 then Except.error "Polyline must consist of at least 2 points."
  else if followTangent then
    match bishopLoop3 ⟨0, 0, 1⟩ (segVecs3 pts) none with
    | Except.error e => Except.error e
    | Except.ok fs => Except.ok ⟨pts, fs, followTangent⟩
  else Except.ok ⟨pts, List.replicate (pts.length - 1) identityMatrix3, followTangent⟩

/-- `Polyline::find_segment` (`polyline.h`): clamp negative `t` to 0
before the `size_t` truncation, clamp the segment index to the last
segment, and return the (possibly out-of-`[0,1]`) local fraction. -/
def find_segment (npoints : ℕ) (t : Scalar) : ℕ × Scalar :=
  let segment := min (⌊max 0 t * ((npoints - 1 : ℕ) : Scalar)⌋.toNat) (npoints - 2)
  (segment, t * ((npoints - 1 : ℕ) : Scalar) - (segment : Scalar))

/-- `Polyline<3>::transform` (`polyline.h`). -/
def Polyline3.transform (P : Polyline3) (pos : Vec3) (t : Scalar) : Except String Vec3 :=
  if P.points.length < 2 then Except.error "Polyline must consist of at least 2 points."
  else
    let sa := find_segment P.points.length t
    match P.points.get? sa.1, P.points.get? (sa.1 + 1), P.frames.get? sa.1 with
    | some p0, some p1, some F =>
      let q : Vec3 :=
        ⟨pos.x - (p0.x + sa.2 * (p1.x - p0.x)),
         pos.y - (p0.y + sa.2 * (p1.y - p0.y)),
         pos.z - (p0.z + sa.2 * (p1.z - p0.z))⟩
      Except.ok (apply_matrix3 (transpose3 F) q)
    | _, _, _ => Except.error "index out of range"

/-- `Polyline<3>::velocity` (`polyline.h`). -/
def Polyline3.velocity (P : Polyline3) (pos : Vec3) (t : Scalar) : Except String Vec3 :=
  if P.points.length < 2 then Except.error "Polyline must consist of at least 2 points."
  else
    let sa := find_segment P.points.length t
    match P.points.get? sa.1, P.points.get? (sa.1 + 1), P.frames.get? sa.1 with
    | some p0, some p1, some F =>
      let v : Vec3 :=
        ⟨(p0.x - p1.x) * ((P.points.length - 1 : ℕ) : Scalar),
         (p0.y - p1.y) * ((P.points.length - 1 : ℕ) : Scalar),
         (p0.z - p1.z) * ((P.points.length - 1 : ℕ) : Scalar)⟩
      Except.ok (apply_matrix3 (transpose3 F) v)
    | _, _, _ => Except.error "index out of range"

/-- `Polyline<3>::position_Jacobian` (`polyline.h`). -/
def Polyline3.position_Jacobian (P : Polyline3) (pos : Vec3) (t : Scalar) :
    Except String Mat3 :=
  if P.points.length < 2 then Except.error "Polyline must consist of at least 2 points."
  else
    let sa := find_segment P.points.length t
    match P.frames.get? sa.1 with
    | some F => Except.ok (transpose3 F)
    | none => Except.error "index out of range"

/-- The four control points of Bezier segment `i`:
`std::span{m_points.data() + segment * 3, 4}`. -/
def getCtrl3 (pts : List Vec3) (i : ℕ) : Except String (Vec3 × Vec3 × Vec3 × Vec3) :=
  match pts.get? (i * 3), pts.get? (i * 3 + 1), pts.get? (i * 3 + 2), pts.get? (i * 3 + 3) with
  | some a, some b, some c, some d => Except.ok (a, b, c, d)
  | _, _, _, _ => Except.error "control point index out of range"

/-- Inner loop of `PolyBezier<3>::initialize_bishop_frames`: the
`m_frames_per_bezier = 4` sampled curve derivatives of one segment, at
`t = j / (m_frames_per_bezier - 1)` for `j = 0, 1, 2, 3`. -/
def segTangents3 (c : Vec3 × Vec3 × Vec3 × Vec3) : List Vec3 :=
  [bezier_derivative3 c.1 c.2.1 c.2.2.1 c.2.2.2 (0 / 3),
   bezier_derivative3 c.1 c.2.1 c.2.2.1 c.2.2.2 (1 / 3),
   bezier_derivative3 c.1 c.2.1 c.2.2.1 c.2.2.2 (2 / 3),
   bezier_derivative3 c.1 c.2.1 c.2.2.1 c.2.2.2 (3 / 3)]

/-- Outer loop of `PolyBezier<3>::initialize_bishop_frames`: concatenate
the sampled tangents of the `count` Bezier segments starting at segment
index `i`. -/
def allTangents3 (pts : List Vec3) : ℕ → ℕ → Except String (List Vec3)
  | _, 0 => Except.ok []
  | i, count + 1 =>
    match getCtrl3 pts i with
    | Except.error e => Except.error e
    | Except.ok c =>
      match allTangents3 pts (i + 1) count with
      | Except.error e => Except.error e
      | Except.ok rest => Except.ok (segTangents3 c ++ rest)

/-- State of a constructed `PolyBezier<3>` (`polybezier.h`): control
points, the sampled Bishop frames (`m_frames_per_bezier = 4` per
segment), and the `m_follow_tangent` flag. -/
structure PolyBezier3 where
  points : List Vec3
  frames : List Mat3
  followTangent : Bool

/-- `PolyBezier<3>::PolyBezier` (`polybezier.h`): validates the control
point count (at least 4, of the form `3k + 1`) and then precomputes the
Bishop frames (this happens regardless of `follow_tangent`). -/
def PolyBezier3.make (pts : List Vec3) (followTangent : Bool) : Except String PolyBezier3 :=
  if pts.length < 4 then Except.error "PolyBezier must consist of at least 4 points."
  else if (pts.length - 1) % 3 ≠ 0 then
    Except.error "PolyBezier must consist of a (n * 3) + 1 points."
  else
    match allTangents3 pts 0 ((pts.length - 1) / 3) with
    | Except.error e => Except.error e
    | Except.ok tans =>
      match bishopLoop3 ⟨0, 0, 1⟩ tans none with
      | Except.error e => Except.error e
      | Except.ok fs => Except.ok ⟨pts, fs, followTangent⟩

/-- `PolyBezier::find_bezier` (`polybezier.h`): same clamp policy as
`Polyline::find_segment`, the local `alpha` is allowed outside `[0,1]`. -/
def find_bezier (npoints : ℕ) (t : Scalar) : ℕ × Scalar :=
  let numBeziers := (npoints - 1) / 3
  let segment := min (⌊max 0 t * (numBeziers : Scalar)⌋.toNat) (numBeziers - 1)
  (segment, t * (numBeziers : Scalar) - (segment : Scalar))

/-- `PolyBezier<3>::get_frame` (`polybezier.h`): look up the stored frame
at `frame_index = segment * m_frames_per_bezier + (size_t)(alpha *
(m_frames_per_bezier - 1))` (the source does not clamp this index; a
negative `alpha` would even make the `size_t` cast undefined, modelled
here with `Int.toNat` of the floor), read the stored tangent from column
2 of that frame, and re-align it to the exact tangent at `alpha` with one
extra rotation. -/
def PolyBezier3.get_frame (B : PolyBezier3) (segment : ℕ) (alpha : Scalar) :
    Except String Mat3 :=
  let frameIndex := segment * 4 + (⌊alpha * (3 : Scalar)⌋.toNat)
  match B.frames.get? frameIndex with
  | none => Except.error "frame index out of range"
  | some refFrame =>
    match vec3Entry refFrame.r0 2, vec3Entry refFrame.r1 2, vec3Entry refFrame.r2 2 with
    | some fx, some fy, some fz =>
      match getCtrl3 B.points segment with
      | Except.error e => Except.error e
      | Except.ok c =>
        let toVec := bezier_derivative3 c.1 c.2.1 c.2.2.1 c.2.2.2 alpha
        match rotation_matrix3 ⟨fx, fy, fz⟩ toVec with
        | Except.error e => Except.error e
        | Except.ok R => Except.ok (multiply3 R refFrame)
    | _, _, _ => Except.error "frame entry index out of range"

/-- `PolyBezier<3>::get_frame_derivative` (`polybezier.h`), 3D branch:
returns the zero matrix when the curve speed is below `1e-10`, otherwise
the analytic frame derivative from the rotation rates `kappa1, kappa2`. -/
def get_frame_derivative3 (frame : Mat3) (vel acc : Vec3) : Mat3 :=
  let speed := norm3 vel
  if speed < 1e-10 then ⟨⟨0, 0, 0⟩, ⟨0, 0, 0⟩, ⟨0, 0, 0⟩⟩
  else
    let tp := transpose3 frame
    let N1 := tp.r0
    let N2 := tp.r1
    let T := tp.r2
    let accT := dot3 acc T
    let dT : Vec3 :=
      ⟨(acc.x - accT * T.x) / speed, (acc.y - accT * T.y) / speed, (acc.z - accT * T.z) / speed⟩
    let kappa1 := dot3 dT N1
    let kappa2 := dot3 dT N2
    let dN1 : Vec3 := ⟨-kappa1 * T.x, -kappa1 * T.y, -kappa1 * T.z⟩
    let dN2 : Vec3 := ⟨-kappa2 * T.x, -kappa2 * T.y, -kappa2 * T.z⟩
    ⟨⟨dN1.x, dN2.x, dT.x⟩, ⟨dN1.y, dN2.y, dT.y⟩, ⟨dN1.z, dN2.z, dT.z⟩⟩

/-- `PolyBezier<3>::transform` (`polybezier.h`). -/
def PolyBezier3.transform (B : PolyBezier3) (pos : Vec3) (t : Scalar) : Except String Vec3 :=
  let sa := find_bezier B.points.length t
  match getCtrl3 B.points sa.1 with
  | Except.error e => Except.error e
  | Except.ok c =>
    let bp := bezier3 c.1 c.2.1 c.2.2.1 c.2.2.2 sa.2
    if B.followTangent then
      match B.get_frame sa.1 sa.2 with
      | Except.error e => Except.error e
      | Except.ok F =>
        Except.ok (apply_matrix3 (transpose3 F) ⟨pos.x - bp.x, pos.y - bp.y, pos.z - bp.z⟩)
    else Except.ok ⟨pos.x - bp.x, pos.y - bp.y, pos.z - bp.z⟩

/-- `PolyBezier<3>::velocity` (`polybezier.h`). -/
def PolyBezier3.velocity (B : PolyBezier3) (pos : Vec3) (t : Scalar) : Except String Vec3 :=
  let numBeziers := (B.points.length - 1) / 3
  let sa := find_bezier B.points.length t
  match getCtrl3 B.points sa.1 with
  | Except.error e => Except.error e
  | Except.ok c =>
    let bp := bezier3 c.1 c.2.1 c.2.2.1 c.2.2.2 sa.2
    let bv := bezier_derivative3 c.1 c.2.1 c.2.2.1 c.2.2.2 sa.2
    let ba := bezier_second_derivative3 c.1 c.2.1 c.2.2.1 c.2.2.2 sa.2
    if B.followTangent then
      match B.get_frame sa.1 sa.2 with
      | Except.error e => Except.error e
      | Except.ok F =>
        let dF := get_frame_derivative3 F bv ba
        let p1 := apply_matrix3 (transpose3 F)
          ⟨pos.x - bp.x, pos.y - bp.y, pos.z - bp.z⟩
        let p2 := apply_matrix3 dF p1
        let p3 := apply_matrix3 (transpose3 F) p2
        let v := apply_matrix3 (transpose3 F) bv
        Except.ok
          ⟨(-p3.x - v.x) * (numBeziers : Scalar),
           (-p3.y - v.y) * (numBeziers : Scalar),
           (-p3.z - v.z) * (numBeziers : Scalar)⟩
    else
      Except.ok
        ⟨-bv.x * (numBeziers : Scalar), -bv.y * (numBeziers : Scalar),
         -bv.z * (numBeziers : Scalar)⟩

/-- `PolyBezier<3>::position_Jacobian` (`polybezier.h`). -/
def PolyBezier3.position_Jacobian (B : PolyBezier3) (pos : Vec3) (t : Scalar) :
    Except String Mat3 :=
  if B.followTangent then
    let sa := find_bezier B.points.length t
    match B.get_frame sa.1 sa.2 with
    | Except.error e => Except.error e
    | Except.ok F => Except.ok (transpose3 F)
  else Except.ok identityMatrix3

/-- State of a constructed `PolyBezier<2>` (`polybezier.h`). -/
structure PolyBezier2 where
  points : List Vec2
  frames : List Mat2
  followTangent : Bool

/-- The four control points of 2D Bezier segment `i`. -/
def getCtrl2 (pts : List Vec2) (i : ℕ) : Except String (Vec2 × Vec2 × Vec2 × Vec2) :=
  match pts.get? (i * 3), pts.get? (i * 3 + 1), pts.get? (i * 3 + 2), pts.get? (i * 3 + 3) with
  | some a, some b, some c, some d => Except.ok (a, b, c, d)
  | _, _, _, _ => Except.error "control point index out of range"

/-- `PolyBezier<2>::get_frame` (`polybezier.h`): for `dim = 2` the stored
tangent is still read from column index 2 of each row of the 2x2
reference frame (`ref_frame[i][2]` with `i < dim`), which is out of
bounds for a `std::array<Scalar, 2>` row. -/
def PolyBezier2.get_frame (B : PolyBezier2) (segment : ℕ) (alpha : Scalar) :
    Except String Mat2 :=
  let frameIndex := segment * 4 + (⌊alpha * (3 : Scalar)⌋.toNat)
  match B.frames.get? frameIndex with
  | none => Except.error "frame index out of range"
  | some refFrame =>
    match vec2Entry refFrame.r0 2, vec2Entry refFrame.r1 2 with
    | some fx, some fy =>
      match getCtrl2 B.points segment with
      | Except.error e => Except.error e
      | Except.ok c =>
        let toVec := bezier_derivative2 c.1 c.2.1 c.2.2.1 c.2.2.2 alpha
        match rotation_matrix2 ⟨fx, fy⟩ toVec with
        | Except.error e => Except.error e
        | Except.ok R => Except.ok (multiply2 R refFrame)
    | _, _ => Except.error "frame entry index out of range"

/-- `PolyBezier<2>::get_frame_derivative` (`polybezier.h`), 2D branch. -/
def get_frame_derivative2 (frame : Mat2) (vel acc : Vec2) : Mat2 :=
  let speed := norm2 vel
  if speed < 1e-10 then ⟨⟨0, 0⟩, ⟨0, 0⟩⟩
  else
    let tp := transpose2 frame
    let N1 := tp.r0
    let T := tp.r1
    let accT := dot2 acc T
    let dT : Vec2 := ⟨(acc.x - accT * T.x) / speed, (acc.y - accT * T.y) / speed⟩
    let kappa := speed * dot2 dT N1
    let dN1 : Vec2 := ⟨-kappa * T.x, -kappa * T.y⟩
    ⟨⟨dN1.x, dT.x⟩, ⟨dN1.y, dT.y⟩⟩

/-- `PolyBezier<2>::transform` (`polybezier.h`). -/
def PolyBezier2.transform (B : PolyBezier2) (pos : Vec2) (t : Scalar) : Except String Vec2 :=
  let sa := find_bezier B.points.length t
  match getCtrl2 B.points sa.1 with
  | Except.error e => Except.error e
  | Except.ok c =>
    let bp := bezier2 c.1 c.2.1 c.2.2.1 c.2.2.2 sa.2
    if B.followTangent then
      match B.get_frame sa.1 sa.2 with
      | Except.error e => Except.error e
      | Except.ok F => Except.ok (apply_matrix2 (transpose2 F) ⟨pos.x - bp.x, pos.y - bp.y⟩)
    else Except.ok ⟨pos.x - bp.x, pos.y - bp.y⟩

/-- `PolyBezier<2>::velocity` (`polybezier.h`). -/
def PolyBezier2.velocity (B : PolyBezier2) (pos : Vec2) (t : Scalar) : Except String Vec2 :=
  let numBeziers := (B.points.length - 1) / 3
  let sa := find_bezier B.points.length t
  match getCtrl2 B.points sa.1 with
  | Except.error e => Except.error e
  | Except.ok c =>
    let bp := bezier2 c.1 c.2.1 c.2.2.1 c.2.2.2 sa.2
    let bv := bezier_derivative2 c.1 c.2.1 c.2.2.1 c.2.2.2 sa.2
    let ba := bezier_second_derivative2 c.1 c.2.1 c.2.2.1 c.2.2.2 sa.2
    if B.followTangent then
      match B.get_frame sa.1 sa.2 with
      | Except.error e => Except.error e
      | Except.ok F =>
        let dF := get_frame_derivative2 F bv ba
        let p1 := apply_matrix2 (transpose2 F) ⟨pos.x - bp.x, pos.y - bp.y⟩
        let p2 := apply_matrix2 dF p1
        let p3 := apply_matrix2 (transpose2 F) p2
        let v := apply_matrix2 (transpose2 F) bv
        Except.ok
          ⟨(-p3.x - v.x) * (numBeziers : Scalar), (-p3.y - v.y) * (numBeziers : Scalar)⟩
    else
      Except.ok ⟨-bv.x * (numBeziers : Scalar), -bv.y * (numBeziers : Scalar)⟩

/-- `PolyBezier<2>::position_Jacobian` (`polybezier.h`). -/
def PolyBezier2.position_Jacobian (B : PolyBezier2) (pos : Vec2) (t : Scalar) :
    Except String Mat2 :=
  if B.followTangent then
    let sa := find_bezier B.points.length t
    match B.get_frame sa.1 sa.2 with
    | Except.error e => Except.error e
    | Except.ok F => Except.ok (transpose2 F)
  else Except.ok ⟨⟨1, 0⟩, ⟨0, 1⟩⟩

/-- Space-time gradient vector for `dim = 3`: `std::array<Scalar, dim+1>`,
components `x`, `y`, `z` spatial and `w` the time component. -/
@[ext]
structure Vec4 where
  x : Scalar
  y : Scalar
  z : Scalar
  w : Scalar

/-- The `ImplicitFunction<3>` contract (`implicit_function.h`): a value
field and its spatial gradient. -/
structure ImplicitFunction3 where
  value : Vec3 → Scalar
  gradient : Vec3 → Vec3

/-- The `Transform<3>` contract (`transform.h`). -/
structure Transform3 where
  transform : Vec3 → Scalar → Vec3
  velocity : Vec3 → Scalar → Vec3
  position_Jacobian : Vec3 → Scalar → Mat3

/-- The `SpaceTimeFunction<3>` contract (`space_time_function.h`): value,
time derivative, and a `dim + 1` gradient whose last component is the
time derivative. -/
structure SpaceTimeFunction3 where
  value : Vec3 → Scalar → Scalar
  time_derivative : Vec3 → Scalar → Scalar
  gradient : Vec3 → Scalar → Vec4

/-- `BlendingFunction` enumeration (`implicit_union.h`). -/
inductive BlendingFunction where
  | Quadratic
  | Quartic
  | Cubic
  | Circular

/-- State of an `ImplicitUnion` (`implicit_union.h`). Its constructor
performs no validation at all (in particular `smooth_distance` is not
checked for sign). -/
structure ImplicitUnionObj where
  f1 : ImplicitFunction3
  f2 : ImplicitFunction3
  smooth_distance : Scalar

/-- `ImplicitUnion::ImplicitUnion` (`implicit_union.h`): stores its
arguments without any check. -/
def ImplicitUnionObj.make (f1 f2 : ImplicitFunction3) (s : Scalar) :
    Except String ImplicitUnionObj :=
  Except.ok ⟨f1, f2, s⟩

/-- `ImplicitUnion::value` (`implicit_union.h`), parameterized by the
`UnionType` template argument. -/
def ImplicitUnion_value (bf : BlendingFunction) (f1 f2 : ImplicitFunction3) (s : Scalar)
    (pos : Vec3) : Scalar :=
  let a := f1.value pos
  let b := f2.value pos
  if s > 0 then
    match bf with
    | BlendingFunction.Quadratic =>
      let k := s * 4
      let h := max (k - |a - b|) 0 / k
      min a b - h * h * k * (1 / 4)
    | BlendingFunction.Cubic =>
      let k := s * 6
      let h := max (k - |a - b|) 0 / k
      min a b - h * h * h * k * (1 / 6)
    | BlendingFunction.Quartic =>
      let k := s * 16 / 3
      let h := max (k - |a - b|) 0 / k
      min a b - h * h * h * (4 - h) * k * (1 / 16)
    | BlendingFunction.Circular =>
      let k := s * 1 / (1 - Real.sqrt 0.5)
      let h := max (k - |a - b|) 0 / k
      min a b - k * 0.5 * (1 + h - Real.sqrt (1 - h * (h - 2)))
  else min a b

/-- `ImplicitUnion::gradient` (`implicit_union.h`): per-kernel derivative
weighting inside the transition window, gradient of the smaller operand
outside it, and for the hard union (`smooth_distance <= 0`) the
expression `(a < b) ? grad_a : grad_b`. -/
def ImplicitUnion_gradient (bf : BlendingFunction) (f1 f2 : ImplicitFunction3) (s : Scalar)
    (pos : Vec3) : Vec3 :=
  let a := f1.value pos
  let b := f2.value pos
  let grad_a := f1.gradient pos
  let grad_b := f2.gradient pos
  if s > 0 then
    let k := match bf with
      | BlendingFunction.Quadratic => s * 4
      | BlendingFunction.Cubic => s * 6
      | BlendingFunction.Quartic => s * 16 / 3
      | BlendingFunction.Circular => s * 1 / (1 - Real.sqrt 0.5)
    let abs_diff := |a - b|
    if abs_diff ≥ k then if a < b then grad_a else grad_b
    else
      let h := (k - abs_diff) / k
      let sign : Scalar := if a < b then -1 else 1
      let coeff := match bf with
        | BlendingFunction.Quadratic => -h * sign / 2
        | BlendingFunction.Cubic => -h * h * sign / 2
        | BlendingFunction.Quartic => -(3 / 16 * h * h * (4 - h) - h * h * h / 16) * sign
        | BlendingFunction.Circular =>
          -0.5 * (1 + (h - 1) / Real.sqrt (1 - h * (h - 2))) * sign
      let dminx := if a < b then grad_a.x else grad_b.x
      let dminy := if a < b then grad_a.y else grad_b.y
      let dminz := if a < b then grad_a.z else grad_b.z
      ⟨dminx - coeff * (grad_a.x - grad_b.x),
       dminy - coeff * (grad_a.y - grad_b.y),
       dminz - coeff * (grad_a.z - grad_b.z)⟩
  else if a < b then grad_a else grad_b

/-- State of a `UnionFunction<3>` (`union_function.h`). -/
structure UnionFunctionObj where
  f1 : SpaceTimeFunction3
  f2 : SpaceTimeFunction3
  smooth_distance : Scalar

/-- `UnionFunction::UnionFunction` (`union_function.h`): throws
`std::invalid_argument` for a negative smoothing distance. -/
def UnionFunctionObj.make (f1 f2 : SpaceTimeFunction3) (s : Scalar) :
    Except String UnionFunctionObj :=
  if s < 0 then Except.error "smooth_distance must be non-negative"
  else Except.ok ⟨f1, f2, s⟩

/-- `UnionFunction::value` (`union_function.h`): quadratic smooth union
for `smooth_distance > 0`, exact `min` otherwise. -/
def UnionFunction_value (f1 f2 : SpaceTimeFunction3) (s : Scalar) (pos : Vec3) (t : Scalar) :
    Scalar :=
  let a := f1.value pos t
  let b := f2.value pos t
  if s > 0 then
    let k := s * 4
    let h := max (k - |a - b|) 0 / k
    min a b - h * h * k * (1 / 4)
  else min a b

/-- `UnionFunction::time_derivative` (`union_function.h`); at the hard
union's exact tie (`a = b`) the result is the mean `(da + db) / 2`. -/
def UnionFunction_time_derivative (f1 f2 : SpaceTimeFunction3) (s : Scalar) (pos : Vec3)
    (t : Scalar) : Scalar :=
  let a := f1.value pos t
  let b := f2.value pos t
  let da := f1.time_derivative pos t
  let db := f2.time_derivative pos t
  if s > 0 then
    let k := s * 4
    let abs_diff := |a - b|
    if abs_diff ≥ k then if a < b then da else db
    else
      let h := (k - abs_diff) / k
      let sign : Scalar := if a < b then -1 else 1
      let coeff := -h * sign / 2
      (if a < b then da else db) - coeff * (da - db)
  else if a < b then da else if b < a then db else (da + db) / 2

/-- `UnionFunction::gradient` (`union_function.h`) for `dim = 3`; at the
hard union's exact tie the componentwise mean of the two gradients. -/
def UnionFunction_gradient (f1 f2 : SpaceTimeFunction3) (s : Scalar) (pos : Vec3)
    (t : Scalar) : Vec4 :=
  let a := f1.value pos t
  let b := f2.value pos t
  let grad_a := f1.gradient pos t
  let grad_b := f2.gradient pos t
  if s > 0 then
    let k := s * 4
    let abs_diff := |a - b|
    if abs_diff ≥ k then if a < b then grad_a else grad_b
    else
      let h := (k - abs_diff) / k
      let sign : Scalar := if a < b then -1 else 1
      let coeff := -h * sign / 2
      let dminx := if a < b then grad_a.x else grad_b.x
      let dminy := if a < b then grad_a.y else grad_b.y
      let dminz := if a < b then grad_a.z else grad_b.z
      let dminw := if a < b then grad_a.w else grad_b.w
      ⟨dminx - coeff * (grad_a.x - grad_b.x),
       dminy - coeff * (grad_a.y - grad_b.y),
       dminz - coeff * (grad_a.z - grad_b.z),
       dminw - coeff * (grad_a.w - grad_b.w)⟩
  else if a < b then grad_a
  else if b < a then grad_b
  else
    ⟨(grad_a.x + grad_b.x) / 2, (grad_a.y + grad_b.y) / 2,
     (grad_a.z + grad_b.z) / 2, (grad_a.w + grad_b.w) / 2⟩

/-- `Compose::transform` (`compose.h`). -/
def Compose_transform (T1 T2 : Transform3) (pos : Vec3) (t : Scalar) : Vec3 :=
  T2.transform (T1.transform pos t) t

/-- `Compose::velocity` (`compose.h`), the unrolled 3D branch
`v2 + J2 * v1` evaluated at the intermediate position. -/
def Compose_velocity (T1 T2 : Transform3) (pos : Vec3) (t : Scalar) : Vec3 :=
  let intermediate := T1.transform pos t
  let v1 := T1.velocity pos t
  let v2 := T2.velocity intermediate t
  let J2 := T2.position_Jacobian intermediate t
  ⟨v2.x + J2.r0.x * v1.x + J2.r0.y * v1.y + J2.r0.z * v1.z,
   v2.y + J2.r1.x * v1.x + J2.r1.y * v1.y + J2.r1.z * v1.z,
   v2.z + J2.r2.x * v1.x + J2.r2.y * v1.y + J2.r2.z * v1.z⟩

/-- `Compose::position_Jacobian` (`compose.h`), the explicit triple loop
`J[i][j] = sum_k J2[i][k] * J1[k][j]`. -/
def Compose_position_Jacobian (T1 T2 : Transform3) (pos : Vec3) (t : Scalar) : Mat3 :=
  let intermediate := T1.transform pos t
  let J1 := T1.position_Jacobian pos t
  let J2 := T2.position_Jacobian intermediate t
  ⟨⟨J2.r0.x * J1.r0.x + J2.r0.y * J1.r1.x + J2.r0.z * J1.r2.x,
    J2.r0.x * J1.r0.y + J2.r0.y * J1.r1.y + J2.r0.z * J1.r2.y,
    J2.r0.x * J1.r0.z + J2.r0.y * J1.r1.z + J2.r0.z * J1.r2.z⟩,
   ⟨J2.r1.x * J1.r0.x + J2.r1.y * J1.r1.x + J2.r1.z * J1.r2.x,
    J2.r1.x * J1.r0.y + J2.r1.y * J1.r1.y + J2.r1.z * J1.r2.y,
    J2.r1.x * J1.r0.z + J2.r1.y * J1.r1.z + J2.r1.z * J1.r2.z⟩,
   ⟨J2.r2.x * J1.r0.x + J2.r2.y * J1.r1.x + J2.r2.z * J1.r2.x,
    J2.r2.x * J1.r0.y + J2.r2.y * J1.r1.y + J2.r2.z * J1.r2.y,
    J2.r2.x * J1.r0.z + J2.r2.y * J1.r1.z + J2.r2.z * J1.r2.z⟩⟩

/-- `SweepFunction::value` (`sweep_function.h`). -/
def Sweep_value (f : ImplicitFunction3) (T : Transform3) (pos : Vec3) (t : Scalar) : Scalar :=
  f.value (T.transform pos t)

/-- `SweepFunction::time_derivative` (`sweep_function.h`), 3D branch. -/
def Sweep_time_derivative (f : ImplicitFunction3) (T : Transform3) (pos : Vec3) (t : Scalar) :
    Scalar :=
  let transformed := T.transform pos t
  let velocity := T.velocity pos t
  let g := f.gradient transformed
  g.x * velocity.x + g.y * velocity.y + g.z * velocity.z

/-- `SweepFunction::gradient` (`sweep_function.h`): the spatial part is
`grad[i] = sum_k J[k][i] * g_f[k]`, the time component is
`time_derivative`. -/
def Sweep_gradient (f : ImplicitFunction3) (T : Transform3) (pos : Vec3) (t : Scalar) : Vec4 :=
  let transformed := T.transform pos t
  let g := f.gradient transformed
  let J := T.position_Jacobian pos t
  ⟨J.r0.x * g.x + J.r1.x * g.y + J.r2.x * g.z,
   J.r0.y * g.x + J.r1.y * g.y + J.r2.y * g.z,
   J.r0.z * g.x + J.r1.z * g.y + J.r2.z * g.z,
   Sweep_time_derivative f T pos t⟩

/-- `OffsetFunction::value` (`offset_function.h`). -/
def Offset_value (f : SpaceTimeFunction3) (o : Scalar → Scalar) (pos : Vec3) (t : Scalar) :
    Scalar :=
  f.value pos t + o t

/-- `OffsetFunction::time_derivative` (`offset_function.h`). -/
def Offset_time_derivative (f : SpaceTimeFunction3) (od : Scalar → Scalar) (pos : Vec3)
    (t : Scalar) : Scalar :=
  f.time_derivative pos t + od t

/-- `OffsetFunction::gradient` (`offset_function.h`): the base gradient
with the offset derivative added to the time component `grad[dim]`. -/
def Offset_gradient (f : SpaceTimeFunction3) (od : Scalar → Scalar) (pos : Vec3)
    (t : Scalar) : Vec4 :=
  let grad := f.gradient pos t
  ⟨grad.x, grad.y, grad.z, grad.w + od t⟩

/-- Componentwise vector sum (used to state the chain-rule claim
`v2 + J2 * v1`). -/
def addV3 (a b : Vec3) : Vec3 :=
  ⟨a.x + b.x, a.y + b.y, a.z + b.z⟩

/-- Kernel transition width from the spec: `k = 4s` (Quadratic), `6s`
(Cubic), `16s/3` (Quartic), `s / (1 - sqrt 0.5)` (Circular). -/
def kernelWidth : BlendingFunction → Scalar → Scalar
  | BlendingFunction.Quadratic, s => 4 * s
  | BlendingFunction.Cubic, s => 6 * s
  | BlendingFunction.Quartic, s => 16 * s / 3
  | BlendingFunction.Circular, s => s / (1 - Real.sqrt 0.5)

/-- Normalized window coordinate from the spec: `h = max(k - d, 0) / k`
where `d = |a - b|`. -/
def kernelH (k d : Scalar) : Scalar :=
  max (k - d) 0 / k

/-- Smoothing profile from the spec, the amount subtracted from
`min(a, b)`: `h^2 k/4` (Quadratic), `h^3 k/6` (Cubic), `h^3 (4-h) k/16`
(Quartic), `k/2 (1 + h - sqrt(1 - h(h-2)))` (Circular). -/
def kernelProfileTerm : BlendingFunction → Scalar → Scalar → Scalar
  | BlendingFunction.Quadratic, h, k => h ^ 2 * k / 4
  | BlendingFunction.Cubic, h, k => h ^ 3 * k / 6
  | BlendingFunction.Quartic, h, k => h ^ 3 * (4 - h) * k / 16
  | BlendingFunction.Circular, h, k => k / 2 * (1 + h - Real.sqrt (1 - h * (h - 2)))

/-- Orthonormality within a tolerance, as the spec states it: every
column has unit length and distinct columns are perpendicular, to within
`tol`. -/
def isOrthonormal3 (M : Mat3) (tol : Scalar) : Prop :=
  |dot3 (col0 M) (col0 M) - 1| ≤ tol ∧ |dot3 (col1 M) (col1 M) - 1| ≤ tol ∧
  |dot3 (col2 M) (col2 M) - 1| ≤ tol ∧ |dot3 (col0 M) (col1 M)| ≤ tol ∧
  |dot3 (col0 M) (col2 M)| ≤ tol ∧ |dot3 (col1 M) (col2 M)| ≤ tol

/-- Constant implicit function used as the first operand of the hard
union tie counterexample: value 0, gradient `(1, 0, 0)`. -/
def cf1 : ImplicitFunction3 :=
  ⟨fun _ => 0, fun _ => ⟨1, 0, 0⟩⟩

/-- Constant implicit function used as the second operand of the hard
union tie counterexample: value 0, gradient `(0, 1, 0)`. -/
def cf2 : ImplicitFunction3 :=
  ⟨fun _ => 0, fun _ => ⟨0, 1, 0⟩⟩

/-- Constant space-time function used by the C4 witness (value 0, time
derivative 1). -/
def sf1 : SpaceTimeFunction3 :=
  ⟨fun _ _ => 0, fun _ _ => 1, fun _ _ => ⟨1, 0, 0, 1⟩⟩

/-- Constant space-time function used by the C4 witness (value 0, time
derivative 3). -/
def sf2 : SpaceTimeFunction3 :=
  ⟨fun _ _ => 0, fun _ _ => 3, fun _ _ => ⟨0, 1, 0, 3⟩⟩

/-- Concrete 2D PolyBezier state used by the C10 witness. -/
def pbz2ex : PolyBezier2 :=
  ⟨[⟨0, 0⟩, ⟨1, 0⟩, ⟨2, 0⟩, ⟨3, 0⟩], [⟨⟨1, 0⟩, ⟨0, 1⟩⟩], true⟩

/-- Points of the C2 failing input: a 3D polyline that goes up the z-axis
and folds straight back onto itself (an exact 180 degree direction
reversal between the two segments). -/
def c2pts : List Vec3 := [⟨0, 0, 0⟩, ⟨0, 0, 1⟩, ⟨0, 0, 0⟩]

/-- The second Bishop frame computed for `c2pts`: the antiparallel branch
of `rotation_matrix` returns `I + 2K` (not a rotation), so this stored
frame is far from orthonormal. -/
def c2frame : Mat3 := ⟨⟨1, 0, 2⟩, ⟨0, 1, 0⟩, ⟨-2, 0, 1⟩⟩

/-- Points of the C8 scenario: the 3D polyline `(0,0,0), (1,0,0),
(0,1,0)` with orientation tracking. -/
def pl3pts : List Vec3 := [⟨0, 0, 0⟩, ⟨1, 0, 0⟩, ⟨0, 1, 0⟩]

/-- First Bishop frame of the C8 polyline (aligning the z-axis with the
first segment direction `(1,0,0)`). -/
def pl3F0 : Mat3 := ⟨⟨0, 0, 1⟩, ⟨0, 1, 0⟩, ⟨-1, 0, 0⟩⟩

/-- Second Bishop frame of the C8 polyline. -/
def pl3F1 : Mat3 :=
  ⟨⟨0, -(Real.sqrt 2 / 2), -(Real.sqrt 2 / 2)⟩,
   ⟨0, -(Real.sqrt 2 / 2), Real.sqrt 2 / 2⟩,
   ⟨-1, 0, 0⟩⟩

/-- Control points of the degenerate-tangent PolyBezier: the single cubic
segment with control points `(0,0,0), (1,0,0), (0,0,0), (1,0,0)`. Its
derivative is nonzero at the four construction-time samples
`t = 0, 1/3, 2/3, 1` (so construction succeeds) but vanishes exactly at
`t = 1/2`. -/
def exPts : List Vec3 := [⟨0, 0, 0⟩, ⟨1, 0, 0⟩, ⟨0, 0, 0⟩, ⟨1, 0, 0⟩]

/-- C9: `OffsetFunction(f, o, o')` adds `o(t)` to the base value, adds
`o'(t)` to the base time derivative, leaves the spatial gradient
components unchanged, and changes the gradient's time component by
exactly `o'(t)`. -/
theorem c9_offset_function (f : SpaceTimeFunction3) (o od : Scalar → Scalar) (pos : Vec3)
    (t : Scalar) :
    Offset_value f o pos t = f.value pos t + o t ∧
    Offset_time_derivative f od pos t = f.time_derivative pos t + od t ∧
    (Offset_gradient f od pos t).x = (f.gradient pos t).x ∧
    (Offset_gradient f od pos t).y = (f.gradient pos t).y ∧
    (Offset_gradient f od pos t).z = (f.gradient pos t).z ∧
    (Offset_gradient f od pos t).w = (f.gradient pos t).w + od t :=
  ⟨rfl, rfl, rfl, rfl, rfl, rfl⟩

/-- C6: `Compose(T1, T2)` satisfies the chain rule — its position
Jacobian is the matrix product `J2(T1(p,t), t) * J1(p,t)` and its
velocity is `v2(T1(p,t), t) + J2(T1(p,t), t) * v1(p,t)` — and
`Sweep(prim, T)` satisfies `time_derivative = dot(grad prim(T(p,t)),
velocity(p,t))` with spatial gradient `J^T * grad prim(T(p,t))`. -/
theorem c6_chain_rule (T1 T2 T : Transform3) (f : ImplicitFunction3) (p : Vec3) (t : Scalar) :
    Compose_position_Jacobian T1 T2 p t =
      multiply3 (T2.position_Jacobian (T1.transform p t) t) (T1.position_Jacobian p t) ∧
    Compose_velocity T1 T2 p t =
      addV3 (T2.velocity (T1.transform p t) t)
        (apply_matrix3 (T2.position_Jacobian (T1.transform p t) t) (T1.velocity p t)) ∧
    Sweep_time_derivative f T p t = dot3 (f.gradient (T.transform p t)) (T.velocity p t) ∧
    (Sweep_gradient f T p t).x =
      (apply_matrix3 (transpose3 (T.position_Jacobian p t)) (f.gradient (T.transform p t))).x ∧
    (Sweep_gradient f T p t).y =
      (apply_matrix3 (transpose3 (T.position_Jacobian p t)) (f.gradient (T.transform p t))).y ∧
    (Sweep_gradient f T p t).z =
      (apply_matrix3 (transpose3 (T.position_Jacobian p t)) (f.gradient (T.transform p t))).z ∧
    (Sweep_gradient f T p t).w = Sweep_time_derivative f T p t := by
  refine ⟨?_, ?_, ?_, ?_, ?_, ?_, rfl⟩
  · ext <;>
      simp [Compose_position_Jacobian, multiply3, dot3, col0, col1, col2]
  · ext <;> simp [Compose_velocity, addV3, apply_matrix3] <;> ring
  · simp [Sweep_time_derivative, dot3]
  · simp [Sweep_gradient, apply_matrix3, transpose3]
  · simp [Sweep_gradient, apply_matrix3, transpose3]
  · simp [Sweep_gradient, apply_matrix3, transpose3]

/-- C4 counterexample: at an exact tie (`a = b = 0`) the hard
(`smooth_distance = 0`) `ImplicitUnion::gradient` returns the second
operand's gradient `(0, 1, 0)`, not the arithmetic mean
`(1/2, 1/2, 0)` of the two operands' gradients. -/
theorem c4_implicit_union_tie_not_mean :
    ImplicitUnion_gradient BlendingFunction.Quadratic cf1 cf2 0 ⟨0, 0, 0⟩ = ⟨0, 1, 0⟩ ∧
    ImplicitUnion_gradient BlendingFunction.Quadratic cf1 cf2 0 ⟨0, 0, 0⟩ ≠
      ⟨(1 + 0) / 2, (0 + 1) / 2, (0 + 0) / 2⟩ := by
  constructor
  · simp [ImplicitUnion_gradient, cf1, cf2]
  · simp [ImplicitUnion_gradient, cf1, cf2, Vec3.mk.injEq]

/-- C4 (amended): with smoothing distance 0 and exactly equal operand
values, the field-level `UnionFunction` returns the arithmetic mean of
the operands' time derivatives and gradients, while the primitive-level
`ImplicitUnion` returns the second operand's gradient. -/
theorem c4_tie_derivative_rule :
    (∀ (g1 g2 : SpaceTimeFunction3) (pos : Vec3) (t : Scalar),
      g1.value pos t = g2.value pos t →
      UnionFunction_time_derivative g1 g2 0 pos t =
        (g1.time_derivative pos t + g2.time_derivative pos t) / 2 ∧
      UnionFunction_gradient g1 g2 0 pos t =
        ⟨((g1.gradient pos t).x + (g2.gradient pos t).x) / 2,
         ((g1.gradient pos t).y + (g2.gradient pos t).y) / 2,
         ((g1.gradient pos t).z + (g2.gradient pos t).z) / 2,
         ((g1.gradient pos t).w + (g2.gradient pos t).w) / 2⟩) ∧
    (∀ (bf : BlendingFunction) (f1 f2 : ImplicitFunction3) (q : Vec3),
      f1.value q = f2.value q →
      ImplicitUnion_gradient bf f1 f2 0 q = f2.gradient q) := by
  constructor
  · intro g1 g2 pos t h
    constructor
    · simp [UnionFunction_time_derivative, h]
    · simp [UnionFunction_gradient, h]
  · intro bf f1 f2 q h
    simp [ImplicitUnion_gradient, h]

/-- C4 witness: the tie rule evaluated on two concrete constant
operands. -/
theorem c4_tie_derivative_rule_witness :
    UnionFunction_time_derivative sf1 sf2 0 ⟨0, 0, 0⟩ 0 =
      (sf1.time_derivative ⟨0, 0, 0⟩ 0 + sf2.time_derivative ⟨0, 0, 0⟩ 0) / 2 ∧
    ImplicitUnion_gradient BlendingFunction.Cubic cf1 cf2 0 ⟨0, 0, 0⟩ =
      cf2.gradient ⟨0, 0, 0⟩ :=
  ⟨(c4_tie_derivative_rule.1 sf1 sf2 ⟨0, 0, 0⟩ 0 rfl).1,
   c4_tie_derivative_rule.2 BlendingFunction.Cubic cf1 cf2 ⟨0, 0, 0⟩ rfl⟩

lemma sqrt_half_lt_one : Real.sqrt 0.5 < 1 := by
  have h := Real.sqrt_lt_sqrt (by norm_num : (0 : ℝ) ≤ 0.5) (by norm_num : (0.5 : ℝ) < 1)
  simpa using h

lemma kernelWidth_pos (bf : BlendingFunction) (s : Scalar) (hs : 0 < s) :
    0 < kernelWidth bf s := by
  cases bf <;> simp [kernelWidth]
  · linarith
  · linarith
  · linarith
  · exact div_pos hs (by have := sqrt_half_lt_one; linarith)

lemma kernelH_nonneg (k d : Scalar) (hk : 0 < k) : 0 ≤ kernelH k d :=
  div_nonneg (le_max_right _ 0) hk.le

lemma kernelH_le_one (k d : Scalar) (hk : 0 < k) (hd : 0 ≤ d) : kernelH k d ≤ 1 := by
  rw [kernelH, div_le_one hk]
  exact max_le (by linarith) hk.le

lemma kernelH_pos (k d : Scalar) (hk : 0 < k) (hlt : d < k) : 0 < kernelH k d :=
  div_pos (lt_of_lt_of_le (by linarith) (le_max_left _ _)) hk

lemma kernelH_eq_zero (k d : Scalar) (hk : 0 < k) (hge : k ≤ d) : kernelH k d = 0 := by
  rw [kernelH, max_eq_right (by linarith), zero_div]

lemma circ_sqrt_le (h : Scalar) (h0 : 0 ≤ h) : Real.sqrt (1 - h * (h - 2)) ≤ 1 + h := by
  calc Real.sqrt (1 - h * (h - 2)) ≤ Real.sqrt ((1 + h) ^ 2) :=
        Real.sqrt_le_sqrt (by nlinarith)
    _ = 1 + h := Real.sqrt_sq (by linarith)

lemma circ_sqrt_lt (h : Scalar) (h0 : 0 < h) : Real.sqrt (1 - h * (h - 2)) < 1 + h := by
  rw [Real.sqrt_lt' (by linarith)]
  nlinarith

lemma profileTerm_nonneg (bf : BlendingFunction) (h k : Scalar) (hk : 0 < k) (h0 : 0 ≤ h)
    (h1 : h ≤ 1) : 0 ≤ kernelProfileTerm bf h k := by
  cases bf <;> simp only [kernelProfileTerm]
  · exact div_nonneg (mul_nonneg (sq_nonneg h) hk.le) (by norm_num)
  · exact div_nonneg (mul_nonneg (mul_nonneg (pow_nonneg h0 3) (by linarith)) hk.le)
      (by norm_num)
  · exact div_nonneg (mul_nonneg (pow_nonneg h0 3) hk.le) (by norm_num)
  · exact mul_nonneg (by linarith) (by have := circ_sqrt_le h h0; linarith)

lemma profileTerm_pos (bf : BlendingFunction) (h k : Scalar) (hk : 0 < k) (h0 : 0 < h)
    (h1 : h ≤ 1) : 0 < kernelProfileTerm bf h k := by
  cases bf <;> simp only [kernelProfileTerm]
  · exact div_pos (mul_pos (pow_pos h0 2) hk) (by norm_num)
  · exact div_pos (mul_pos (mul_pos (pow_pos h0 3) (by linarith)) hk) (by norm_num)
  · exact div_pos (mul_pos (pow_pos h0 3) hk) (by norm_num)
  · exact mul_pos (by linarith) (by have := circ_sqrt_lt h h0; linarith)

lemma profileTerm_zero (bf : BlendingFunction) (k : Scalar) : kernelProfileTerm bf 0 k = 0 := by
  cases bf <;> simp only [kernelProfileTerm] <;> norm_num [Real.sqrt_one]

lemma implicitUnion_value_closed (bf : BlendingFunction) (f1 f2 : ImplicitFunction3)
    (s : Scalar) (pos : Vec3) (hs : 0 < s) :
    ImplicitUnion_value bf f1 f2 s pos =
      min (f1.value pos) (f2.value pos) -
        kernelProfileTerm bf
          (kernelH (kernelWidth bf s) |f1.value pos - f2.value pos|) (kernelWidth bf s) := by
  cases bf <;>
    simp only [ImplicitUnion_value, kernelProfileTerm, kernelH, kernelWidth, if_pos hs] <;>
    ring_nf

lemma unionFunction_value_closed (g1 g2 : SpaceTimeFunction3) (s : Scalar) (pos : Vec3)
    (t : Scalar) (hs : 0 < s) :
    UnionFunction_value g1 g2 s pos t =
      min (g1.value pos t) (g2.value pos t) -
        kernelProfileTerm BlendingFunction.Quadratic
          (kernelH (kernelWidth BlendingFunction.Quadratic s)
            |g1.value pos t - g2.value pos t|)
          (kernelWidth BlendingFunction.Quadratic s) := by
  simp only [UnionFunction_value, kernelProfileTerm, kernelH, kernelWidth, if_pos hs]
  ring_nf

/-- C5: for smoothing half-width 0 every union kernel is the exact `min`;
for `s > 0` each of the four kernels (and the field-level quadratic
union) equals `min(a,b) - profile(h) * scale` with `h = max(k - |a-b|,
0)/k` per the listed closed forms, hence is at most `min(a,b)`, strictly
below it when `|a-b| < k`, and exactly `min(a,b)` when `|a-b| >= k`. -/
theorem c5_smooth_min_kernels (f1 f2 : ImplicitFunction3) (g1 g2 : SpaceTimeFunction3)
    (pos : Vec3) (t s : Scalar) :
    (s = 0 →
      (∀ bf, ImplicitUnion_value bf f1 f2 s pos = min (f1.value pos) (f2.value pos)) ∧
      UnionFunction_value g1 g2 s pos t = min (g1.value pos t) (g2.value pos t)) ∧
    (0 < s → ∀ bf,
      ImplicitUnion_value bf f1 f2 s pos =
        min (f1.value pos) (f2.value pos) -
          kernelProfileTerm bf
            (kernelH (kernelWidth bf s) |f1.value pos - f2.value pos|) (kernelWidth bf s) ∧
      ImplicitUnion_value bf f1 f2 s pos ≤ min (f1.value pos) (f2.value pos) ∧
      (|f1.value pos - f2.value pos| < kernelWidth bf s →
        ImplicitUnion_value bf f1 f2 s pos < min (f1.value pos) (f2.value pos)) ∧
      (kernelWidth bf s ≤ |f1.value pos - f2.value pos| →
        ImplicitUnion_value bf f1 f2 s pos = min (f1.value pos) (f2.value pos))) ∧
    (0 < s →
      UnionFunction_value g1 g2 s pos t =
        min (g1.value pos t) (g2.value pos t) -
          kernelProfileTerm BlendingFunction.Quadratic
            (kernelH (kernelWidth BlendingFunction.Quadratic s)
              |g1.value pos t - g2.value pos t|)
            (kernelWidth BlendingFunction.Quadratic s) ∧
      UnionFunction_value g1 g2 s pos t ≤ min (g1.value pos t) (g2.value pos t) ∧
      (|g1.value pos t - g2.value pos t| < kernelWidth BlendingFunction.Quadratic s →
        UnionFunction_value g1 g2 s pos t < min (g1.value pos t) (g2.value pos t)) ∧
      (kernelWidth BlendingFunction.Quadratic s ≤ |g1.value pos t - g2.value pos t| →
        UnionFunction_value g1 g2 s pos t = min (g1.value pos t) (g2.value pos t))) := by
  refine ⟨?_, ?_, ?_⟩
  · intro h
    subst h
    constructor
    · intro bf
      cases bf <;> simp [ImplicitUnion_value]
    · simp [UnionFunction_value]
  · intro hs bf
    have hk := kernelWidth_pos bf s hs
    have hd : 0 ≤ |f1.value pos - f2.value pos| := abs_nonneg _
    have hcl := implicitUnion_value_closed bf f1 f2 s pos hs
    have hh0 := kernelH_nonneg (kernelWidth bf s) |f1.value pos - f2.value pos| hk
    have hh1 := kernelH_le_one (kernelWidth bf s) |f1.value pos - f2.value pos| hk hd
    refine ⟨hcl, ?_, ?_, ?_⟩
    · have := profileTerm_nonneg bf _ _ hk hh0 hh1
      linarith [hcl]
    · intro hlt
      have hp := profileTerm_pos bf _ _ hk (kernelH_pos _ _ hk hlt) hh1
      linarith [hcl]
    · intro hge
      rw [hcl, kernelH_eq_zero _ _ hk hge, profileTerm_zero, sub_zero]
  · intro hs
    have hk := kernelWidth_pos BlendingFunction.Quadratic s hs
    have hd : 0 ≤ |g1.value pos t - g2.value pos t| := abs_nonneg _
    have hcl := unionFunction_value_closed g1 g2 s pos t hs
    have hh0 := kernelH_nonneg (kernelWidth BlendingFunction.Quadratic s)
      |g1.value pos t - g2.value pos t| hk
    have hh1 := kernelH_le_one (kernelWidth BlendingFunction.Quadratic s)
      |g1.value pos t - g2.value pos t| hk hd
    refine ⟨hcl, ?_, ?_, ?_⟩
    · have := profileTerm_nonneg BlendingFunction.Quadratic _ _ hk hh0 hh1
      linarith [hcl]
    · intro hlt
      have hp := profileTerm_pos BlendingFunction.Quadratic _ _ hk
        (kernelH_pos _ _ hk hlt) hh1
      linarith [hcl]
    · intro hge
      rw [hcl, kernelH_eq_zero _ _ hk hge, profileTerm_zero, sub_zero]

/-- C5 witness: the kernel facts instantiated at concrete operands
(values 0 and 1) and concrete smoothing half-widths 0 and 1. -/
theorem c5_smooth_min_kernels_witness :
    ImplicitUnion_value BlendingFunction.Quadratic cf1 cf2 0 ⟨0, 0, 0⟩ =
      min (cf1.value ⟨0, 0, 0⟩) (cf2.value ⟨0, 0, 0⟩) ∧
    ImplicitUnion_value BlendingFunction.Cubic cf1 cf2 1 ⟨0, 0, 0⟩ ≤
      min (cf1.value ⟨0, 0, 0⟩) (cf2.value ⟨0, 0, 0⟩) ∧
    ImplicitUnion_value BlendingFunction.Circular cf1 cf2 1 ⟨0, 0, 0⟩ <
      min (cf1.value ⟨0, 0, 0⟩) (cf2.value ⟨0, 0, 0⟩) ∧
    UnionFunction_value sf1 sf2 1 ⟨0, 0, 0⟩ 0 =
      min (sf1.value ⟨0, 0, 0⟩ 0) (sf2.value ⟨0, 0, 0⟩ 0) -
        kernelProfileTerm BlendingFunction.Quadratic
          (kernelH (kernelWidth BlendingFunction.Quadratic 1)
            |sf1.value ⟨0, 0, 0⟩ 0 - sf2.value ⟨0, 0, 0⟩ 0|)
          (kernelWidth BlendingFunction.Quadratic 1) := by
  refine ⟨((c5_smooth_min_kernels cf1 cf2 sf1 sf2 ⟨0, 0, 0⟩ 0 0).1 rfl).1 _, ?_, ?_, ?_⟩
  · exact (((c5_smooth_min_kernels cf1 cf2 sf1 sf2 ⟨0, 0, 0⟩ 0 1).2.1 (by norm_num)
      BlendingFunction.Cubic).2.1)
  · refine (((c5_smooth_min_kernels cf1 cf2 sf1 sf2 ⟨0, 0, 0⟩ 0 1).2.1 (by norm_num)
      BlendingFunction.Circular).2.2.1) ?_
    have hb : |cf1.value ⟨0, 0, 0⟩ - cf2.value ⟨0, 0, 0⟩| = 0 := by
      simp [cf1, cf2]
    rw [hb]
    exact kernelWidth_pos BlendingFunction.Circular 1 (by norm_num)
  · exact ((c5_smooth_min_kernels cf1 cf2 sf1 sf2 ⟨0, 0, 0⟩ 0 1).2.2 (by norm_num)).1

lemma get_frame2_never_ok (B : PolyBezier2) (seg : ℕ) (alpha : Scalar) (M : Mat2) :
    B.get_frame seg alpha ≠ Except.ok M := by
  unfold PolyBezier2.get_frame
  rcases hf : B.frames.get? (seg * 4 + (⌊alpha * (3 : Scalar)⌋.toNat)) with _ | refF <;>
    simp only [hf] <;> simp [vec2Entry]

/-- C10: for `dim = 2` the stored 2x2 reference frame has no column
index 2, so the tangent read `ref_frame[i][2]` in `get_frame` is out of
bounds for every query (only `dim = 3` reads in bounds), and hence every
`transform` / `velocity` / `position_Jacobian` call of an
orientation-tracking 2D PolyBezier goes through `get_frame` and never
produces a well-defined result. -/
theorem c10_polybezier2_frame_read_oob :
    (∀ M : Mat2, vec2Entry M.r0 2 = none ∧ vec2Entry M.r1 2 = none) ∧
    (∀ M : Mat3, vec3Entry M.r0 2 = some M.r0.z ∧ vec3Entry M.r1 2 = some M.r1.z ∧
      vec3Entry M.r2 2 = some M.r2.z) ∧
    (∀ (B : PolyBezier2) (pos : Vec2) (t : Scalar), B.followTangent = true →
      (∀ v, B.transform pos t ≠ Except.ok v) ∧ (∀ v, B.velocity pos t ≠ Except.ok v) ∧
      (∀ M, B.position_Jacobian pos t ≠ Except.ok M)) := by
  refine ⟨fun M => ⟨rfl, rfl⟩, fun M => ⟨rfl, rfl, rfl⟩, ?_⟩
  intro B pos t hft
  refine ⟨?_, ?_, ?_⟩
  · intro v
    unfold PolyBezier2.transform
    rcases hc : getCtrl2 B.points (find_bezier B.points.length t).1 with e | c
    · simp [hc]
    · simp only [hc, hft, if_true]
      rcases hg : B.get_frame (find_bezier B.points.length t).1
          (find_bezier B.points.length t).2 with e | F
      · simp [hg]
      · exact absurd hg (get_frame2_never_ok _ _ _ _)
  · intro v
    unfold PolyBezier2.velocity
    rcases hc : getCtrl2 B.points (find_bezier B.points.length t).1 with e | c
    · simp [hc]
    · simp only [hc, hft, if_true]
      rcases hg : B.get_frame (find_bezier B.points.length t).1
          (find_bezier B.points.length t).2 with e | F
      · simp [hg]
      · exact absurd hg (get_frame2_never_ok _ _ _ _)
  · intro M
    unfold PolyBezier2.position_Jacobian
    simp only [hft, if_true]
    rcases hg : B.get_frame (find_bezier B.points.length t).1
        (find_bezier B.points.length t).2 with e | F
    · simp [hg]
    · exact absurd hg (get_frame2_never_ok _ _ _ _)

/-- C10 witness: the out-of-bounds tangent read observed on a concrete
orientation-tracking 2D PolyBezier. -/
theorem c10_polybezier2_frame_read_oob_witness :
    vec2Entry (⟨⟨1, 0⟩, ⟨0, 1⟩⟩ : Mat2).r0 2 = none ∧
    ∀ v, pbz2ex.transform ⟨0, 0⟩ 0 ≠ Except.ok v :=
  ⟨(c10_polybezier2_frame_read_oob.1 ⟨⟨1, 0⟩, ⟨0, 1⟩⟩).1,
   (c10_polybezier2_frame_read_oob.2.2 pbz2ex ⟨0, 0⟩ 0 rfl).1⟩

lemma segVecs3_length (pts : List Vec3) : (segVecs3 pts).length = pts.length - 1 := by
  induction pts with
  | nil => simp [segVecs3]
  | cons p0 rest ih =>
    cases rest with
    | nil => simp [segVecs3]
    | cons p1 rest2 => simp [segVecs3, ih]

lemma bishopLoop3_length (tos : List Vec3) :
    ∀ (fromVec : Vec3) (st : Option Mat3) (fs : List Mat3),
      bishopLoop3 fromVec tos st = Except.ok fs → fs.length = tos.length := by
  induction tos with
  | nil =>
    intro fromVec st fs h
    cases st <;> simp only [bishopLoop3] at h <;> cases h <;> rfl
  | cons toVec rest ih =>
    intro fromVec st fs h
    cases st with
    | none =>
      simp only [bishopLoop3] at h
      rcases hr : rotation_matrix3 fromVec toVec with e | R <;> simp only [hr] at h
      · exact absurd h (by simp)
      · rcases hl : bishopLoop3 toVec rest (some R) with e | fs2 <;> simp only [hl] at h
        · exact absurd h (by simp)
        · simp only [Except.ok.injEq] at h
          subst h
          simp [ih toVec (some R) fs2 hl]
    | some back =>
      simp only [bishopLoop3] at h
      rcases hr : rotation_matrix3 fromVec toVec with e | R <;> simp only [hr] at h
      · exact absurd h (by simp)
      · rcases hl : bishopLoop3 toVec rest (some (multiply3 R back)) with e | fs2 <;>
          simp only [hl] at h
        · exact absurd h (by simp)
        · simp only [Except.ok.injEq] at h
          subst h
          simp [ih toVec (some (multiply3 R back)) fs2 hl]

lemma polyline3_make_ok (pts : List Vec3) (ft : Bool) (P : Polyline3)
    (h : Polyline3.make pts ft = Except.ok P) :
    P.points = pts ∧ 2 ≤ pts.length ∧ P.frames.length = pts.length - 1 := by
  unfold Polyline3.make at h
  by_cases h2 : pts.length < 2
  · rw [if_pos h2] at h
    cases h
  · rw [if_neg h2] at h
    cases ft with
    | true =>
      rw [if_pos rfl] at h
      rcases hb : bishopLoop3 ⟨0, 0, 1⟩ (segVecs3 pts) none with e | fs <;> rw [hb] at h
      · cases h
      · cases h
        refine ⟨rfl, by omega, ?_⟩
        rw [bishopLoop3_length _ _ _ _ hb, segVecs3_length]
    | false =>
      rw [if_neg (by simp)] at h
      cases h
      exact ⟨rfl, by omega, by simp⟩

lemma polyline3_eval_ok (pts : List Vec3) (ft : Bool) (P : Polyline3)
    (h : Polyline3.make pts ft = Except.ok P) (pos : Vec3) (t : Scalar) :
    (∃ v, P.transform pos t = Except.ok v) ∧ (∃ v, P.velocity pos t = Except.ok v) ∧
    (∃ M, P.position_Jacobian pos t = Except.ok M) := by
  obtain ⟨hp, h2, hfr⟩ := polyline3_make_ok pts ft P h
  have h2' : 2 ≤ P.points.length := by rw [hp]; exact h2
  have hseg : (find_segment P.points.length t).1 ≤ P.points.length - 2 := min_le_right _ _
  have hlt1 : (find_segment P.points.length t).1 < P.points.length := by omega
  have hlt2 : (find_segment P.points.length t).1 + 1 < P.points.length := by omega
  have hlt3 : (find_segment P.points.length t).1 < P.frames.length := by
    have hfr' : P.frames.length = P.points.length - 1 := by rw [hfr, hp]
    omega
  refine ⟨?_, ?_, ?_⟩
  · simp only [Polyline3.transform, if_neg (show ¬P.points.length < 2 by omega),
      List.get?_eq_get hlt1, List.get?_eq_get hlt2, List.get?_eq_get hlt3]
    exact ⟨_, rfl⟩
  · simp only [Polyline3.velocity, if_neg (show ¬P.points.length < 2 by omega),
      List.get?_eq_get hlt1, List.get?_eq_get hlt2, List.get?_eq_get hlt3]
    exact ⟨_, rfl⟩
  · simp only [Polyline3.position_Jacobian, if_neg (show ¬P.points.length < 2 by omega),
      List.get?_eq_get hlt3]
    exact ⟨_, rfl⟩

/-- C1 (amended): a successfully constructed 3D Polyline never throws
during evaluation — `transform`, `velocity` and `position_Jacobian`
return a value for every position and every real `t` — and the zero-speed
guard of `PolyBezier::get_frame_derivative` returns the zero matrix
(rather than dividing by the near-zero speed) whenever the curve speed is
below `1e-10`. (The original claim fails for PolyBezier evaluation: see
the zero-tangent counterexample, where `get_frame` propagates the
"Zero-length vector" exception from `normalize`.) -/
theorem c1_eval_degenerate_handling :
    (∀ (pts : List Vec3) (ft : Bool) (P : Polyline3),
      Polyline3.make pts ft = Except.ok P →
      ∀ (pos : Vec3) (t : Scalar),
        (∃ v, P.transform pos t = Except.ok v) ∧ (∃ v, P.velocity pos t = Except.ok v) ∧
        (∃ M, P.position_Jacobian pos t = Except.ok M)) ∧
    (∀ (frame : Mat3) (vel acc : Vec3), norm3 vel < 1e-10 →
      get_frame_derivative3 frame vel acc = ⟨⟨0, 0, 0⟩, ⟨0, 0, 0⟩, ⟨0, 0, 0⟩⟩) ∧
    (∀ (frame : Mat2) (vel acc : Vec2), norm2 vel < 1e-10 →
      get_frame_derivative2 frame vel acc = ⟨⟨0, 0⟩, ⟨0, 0⟩⟩) := by
  refine ⟨fun pts ft P h pos t => polyline3_eval_ok pts ft P h pos t, ?_, ?_⟩
  · intro frame vel acc hs
    unfold get_frame_derivative3
    rw [if_pos hs]
  · intro frame vel acc hs
    unfold get_frame_derivative2
    rw [if_pos hs]

/-- C1 witness: evaluation of a concrete two-point Polyline (with
orientation tracking disabled, so its construction is immediate) and the
zero-speed frame-derivative fallback at the zero velocity vector. -/
theorem c1_eval_degenerate_handling_witness :
    (∃ v, (Polyline3.mk [⟨0, 0, 0⟩, ⟨1, 2, 3⟩] [identityMatrix3] false).transform
      ⟨0, 0, 0⟩ 0 = Except.ok v) ∧
    get_frame_derivative3 identityMatrix3 ⟨0, 0, 0⟩ ⟨1, 2, 3⟩ =
      ⟨⟨0, 0, 0⟩, ⟨0, 0, 0⟩, ⟨0, 0, 0⟩⟩ := by
  constructor
  · exact (c1_eval_degenerate_handling.1 [⟨0, 0, 0⟩, ⟨1, 2, 3⟩] false
      (Polyline3.mk [⟨0, 0, 0⟩, ⟨1, 2, 3⟩] [identityMatrix3] false) rfl ⟨0, 0, 0⟩ 0).1
  · refine c1_eval_degenerate_handling.2.1 identityMatrix3 ⟨0, 0, 0⟩ ⟨1, 2, 3⟩ ?_
    have h0 : dot3 ⟨0, 0, 0⟩ ⟨0, 0, 0⟩ = 0 := by norm_num [dot3]
    rw [norm3, h0, Real.sqrt_zero]
    norm_num

lemma normalize3_eval (v : Vec3) (n : Scalar) (hd : dot3 v v = n ^ 2) (hn : (1e-8 : ℝ) ≤ n) :
    normalize3 v = Except.ok ⟨v.x / n, v.y / n, v.z / n⟩ := by
  have hnorm : norm3 v = n := by
    rw [norm3, hd]
    exact Real.sqrt_sq (by linarith)
  unfold normalize3
  rw [hnorm, if_neg (by linarith)]

lemma normalize3_zero : normalize3 ⟨0, 0, 0⟩ = Except.error "Zero-length vector" := by
  have hd : dot3 ⟨0, 0, 0⟩ ⟨0, 0, 0⟩ = 0 := by norm_num [dot3]
  unfold normalize3
  rw [norm3, hd, Real.sqrt_zero, if_pos (by norm_num)]

lemma rot_zz : rotation_matrix3 ⟨0, 0, 1⟩ ⟨0, 0, 1⟩ = Except.ok identityMatrix3 := by
  unfold rotation_matrix3
  rw [normalize3_eval ⟨0, 0, 1⟩ 1 (by norm_num [dot3]) (by norm_num)]
  norm_num [dot3]

lemma rot_z_negz :
    rotation_matrix3 ⟨0, 0, 1⟩ ⟨0, 0, -1⟩ =
      Except.ok ⟨⟨1, 0, 2⟩, ⟨0, 1, 0⟩, ⟨-2, 0, 1⟩⟩ := by
  unfold rotation_matrix3
  rw [normalize3_eval ⟨0, 0, 1⟩ 1 (by norm_num [dot3]) (by norm_num),
    normalize3_eval ⟨0, 0, -1⟩ 1 (by norm_num [dot3]) (by norm_num)]
  rw [show ((⟨0 / 1, 0 / 1, 1 / 1⟩ : Vec3)) = ⟨0, 0, 1⟩ by norm_num,
    show ((⟨0 / 1, 0 / 1, -1 / 1⟩ : Vec3)) = ⟨0, 0, -1⟩ by norm_num]
  simp only [dot3, cross3, norm3]
  norm_num [Real.sqrt_one]
  rw [normalize3_eval ⟨0, 1, 0⟩ 1 (by norm_num [dot3]) (by norm_num)]
  norm_num [skew3, addMat3, scaleMat3, identityMatrix3]

/-- C2: the Bishop frame pre-computed for the second segment of the
polyline `(0,0,0), (0,0,1), (0,0,0)` (orientation tracking enabled) is
`I + 2*skew(axis)`, whose first column has squared norm 5 — not
orthonormal to within `1e-9` (nor any tolerance below 4). The spec and
the source's own "180 degree rotation" comment call for the Rodrigues
`I + 2K^2` form; the returned `I + 2K` contradicts it. -/
theorem c2_opposite_branch_frame_not_orthonormal :
    Polyline3.make c2pts true = Except.ok ⟨c2pts, [identityMatrix3, c2frame], true⟩ ∧
    dot3 (col0 c2frame) (col0 c2frame) = 5 ∧
    ¬isOrthonormal3 c2frame (1e-9) := by
  refine ⟨?_, by norm_num [dot3, col0, c2frame], ?_⟩
  · unfold Polyline3.make
    rw [if_neg (by norm_num [c2pts]), if_pos rfl]
    rw [show segVecs3 c2pts = [⟨0, 0, 1⟩, ⟨0, 0, -1⟩] by norm_num [segVecs3, c2pts]]
    simp only [bishopLoop3]
    rw [rot_zz, rot_z_negz]
    norm_num [multiply3, col0, col1, col2, dot3, identityMatrix3, c2frame]
  · intro h
    have h1 := h.1
    norm_num [dot3, col0, c2frame] at h1

lemma s2_sq : Real.sqrt 2 ^ 2 = 2 := Real.sq_sqrt (by norm_num)

lemma s2_pos : (0 : ℝ) < Real.sqrt 2 := Real.sqrt_pos.mpr (by norm_num)

lemma s2_ge_one : (1 : ℝ) ≤ Real.sqrt 2 := by
  nlinarith [s2_sq, s2_pos]

lemma s2_lt : Real.sqrt 2 < 15 / 10 := by
  nlinarith [s2_sq, s2_pos]

lemma rot_zx :
    rotation_matrix3 ⟨0, 0, 1⟩ ⟨1, 0, 0⟩ =
      Except.ok ⟨⟨0, 0, 1⟩, ⟨0, 1, 0⟩, ⟨-1, 0, 0⟩⟩ := by
  unfold rotation_matrix3
  rw [normalize3_eval ⟨0, 0, 1⟩ 1 (by norm_num [dot3]) (by norm_num),
    normalize3_eval ⟨1, 0, 0⟩ 1 (by norm_num [dot3]) (by norm_num)]
  rw [show ((⟨0 / 1, 0 / 1, 1 / 1⟩ : Vec3)) = ⟨0, 0, 1⟩ by norm_num,
    show ((⟨1 / 1, 0 / 1, 0 / 1⟩ : Vec3)) = ⟨1, 0, 0⟩ by norm_num]
  simp only [dot3, cross3, norm3]
  norm_num [Real.sqrt_one]
  rw [normalize3_eval ⟨0, 1, 0⟩ 1 (by norm_num [dot3]) (by norm_num)]
  norm_num [skew3, multiply3, col0, col1, col2, dot3, addMat3, scaleMat3, identityMatrix3,
    Real.sqrt_one]

lemma rot_x_to_back_left :
    rotation_matrix3 ⟨1, 0, 0⟩ ⟨-1, 1, 0⟩ =
      Except.ok
        ⟨⟨-(Real.sqrt 2 / 2), -(Real.sqrt 2 / 2), 0⟩,
         ⟨Real.sqrt 2 / 2, -(Real.sqrt 2 / 2), 0⟩,
         ⟨0, 0, 1⟩⟩ := by
  have h2 := s2_sq
  have hp := s2_pos
  have hge := s2_ge_one
  have hlt := s2_lt
  unfold rotation_matrix3
  rw [normalize3_eval ⟨1, 0, 0⟩ 1 (by norm_num [dot3]) (by norm_num),
    normalize3_eval ⟨-1, 1, 0⟩ (Real.sqrt 2) (by simp only [dot3]; nlinarith)
      (by nlinarith)]
  rw [show ((⟨1 / 1, 0 / 1, 0 / 1⟩ : Vec3)) = ⟨1, 0, 0⟩ by norm_num,
    show ((⟨-1 / Real.sqrt 2, 1 / Real.sqrt 2, 0 / Real.sqrt 2⟩ : Vec3)) =
      ⟨-(Real.sqrt 2 / 2), Real.sqrt 2 / 2, 0⟩ by
        refine Vec3.mk.injEq .. |>.mpr ⟨?_, ?_, ?_⟩ <;> field_simp]
  simp only [dot3, cross3]
  rw [show (1 * -(Real.sqrt 2 / 2) + 0 * (Real.sqrt 2 / 2) + 0 * 0 : ℝ) =
    -(Real.sqrt 2 / 2) by ring]
  rw [if_neg (by nlinarith), if_neg (by nlinarith)]
  rw [show ((⟨0 * 0 - 0 * (Real.sqrt 2 / 2), 0 * -(Real.sqrt 2 / 2) - 1 * 0,
      1 * (Real.sqrt 2 / 2) - 0 * -(Real.sqrt 2 / 2)⟩ : Vec3)) =
    ⟨0, 0, Real.sqrt 2 / 2⟩ by norm_num]
  rw [normalize3_eval ⟨0, 0, Real.sqrt 2 / 2⟩ (Real.sqrt 2 / 2)
    (by simp only [dot3]; ring) (by nlinarith)]
  rw [show ((⟨0 / (Real.sqrt 2 / 2), 0 / (Real.sqrt 2 / 2),
      Real.sqrt 2 / 2 / (Real.sqrt 2 / 2)⟩ : Vec3)) = ⟨0, 0, 1⟩ by
        refine Vec3.mk.injEq .. |>.mpr ⟨?_, ?_, ?_⟩ <;> field_simp]
  rw [show Real.sqrt (1 - -(Real.sqrt 2 / 2) * -(Real.sqrt 2 / 2)) = Real.sqrt 2 / 2 by
    rw [show (1 - -(Real.sqrt 2 / 2) * -(Real.sqrt 2 / 2) : ℝ) = (Real.sqrt 2 / 2) ^ 2 by
      nlinarith]
    exact Real.sqrt_sq (by nlinarith)]
  simp only [skew3, multiply3, col0, col1, col2, dot3, addMat3, scaleMat3, identityMatrix3]
  refine congrArg Except.ok ?_
  refine Mat3.mk.injEq .. |>.mpr ⟨?_, ?_, ?_⟩ <;>
    refine Vec3.mk.injEq .. |>.mpr ⟨?_, ?_, ?_⟩ <;> ring

lemma pl3_make : Polyline3.make pl3pts true = Except.ok ⟨pl3pts, [pl3F0, pl3F1], true⟩ := by
  unfold Polyline3.make
  rw [if_neg (by norm_num [pl3pts]), if_pos rfl]
  rw [show segVecs3 pl3pts = [⟨1, 0, 0⟩, ⟨-1, 1, 0⟩] by norm_num [segVecs3, pl3pts]]
  simp only [bishopLoop3]
  rw [rot_zx, rot_x_to_back_left]
  simp only [multiply3, col0, col1, col2, dot3, pl3F0, pl3F1]
  refine congrArg Except.ok ?_
  norm_num [pl3pts]

lemma find_segment_3_1 : find_segment 3 1 = (1, 1) := by
  unfold find_segment
  norm_num

/-- C8: for the 3D polyline `(0,0,0), (1,0,0), (0,1,0)` with orientation
tracking, `transform((0,0,0), t = 1)` returns exactly
`(0, sqrt(2)/2, -sqrt(2)/2)`. -/
theorem c8_polyline_concrete_transform :
    Polyline3.make pl3pts true = Except.ok ⟨pl3pts, [pl3F0, pl3F1], true⟩ ∧
    (Polyline3.mk pl3pts [pl3F0, pl3F1] true).transform ⟨0, 0, 0⟩ 1 =
      Except.ok ⟨0, Real.sqrt 2 / 2, -(Real.sqrt 2 / 2)⟩ := by
  refine ⟨pl3_make, ?_⟩
  unfold Polyline3.transform
  rw [if_neg (by norm_num [pl3pts])]
  rw [show (Polyline3.mk pl3pts [pl3F0, pl3F1] true).points.length = 3 by
    norm_num [pl3pts]]
  rw [find_segment_3_1]
  simp only [pl3pts, List.get?, pl3F0, pl3F1, transpose3, apply_matrix3]
  refine congrArg Except.ok ?_
  refine Vec3.mk.injEq .. |>.mpr ⟨?_, ?_, ?_⟩ <;> ring

lemma rot_z_x3 :
    rotation_matrix3 ⟨0, 0, 1⟩ ⟨3, 0, 0⟩ =
      Except.ok ⟨⟨0, 0, 1⟩, ⟨0, 1, 0⟩, ⟨-1, 0, 0⟩⟩ := by
  unfold rotation_matrix3
  rw [normalize3_eval ⟨0, 0, 1⟩ 1 (by norm_num [dot3]) (by norm_num),
    normalize3_eval ⟨3, 0, 0⟩ 3 (by norm_num [dot3]) (by norm_num)]
  rw [show ((⟨0 / 1, 0 / 1, 1 / 1⟩ : Vec3)) = ⟨0, 0, 1⟩ by norm_num,
    show ((⟨3 / 3, 0 / 3, 0 / 3⟩ : Vec3)) = ⟨1, 0, 0⟩ by norm_num]
  simp only [dot3, cross3, norm3]
  norm_num [Real.sqrt_one]
  rw [normalize3_eval ⟨0, 1, 0⟩ 1 (by norm_num [dot3]) (by norm_num)]
  norm_num [skew3, multiply3, col0, col1, col2, dot3, addMat3, scaleMat3, identityMatrix3,
    Real.sqrt_one]

lemma rot_x3_xthird :
    rotation_matrix3 ⟨3, 0, 0⟩ ⟨1 / 3, 0, 0⟩ = Except.ok identityMatrix3 := by
  unfold rotation_matrix3
  rw [normalize3_eval ⟨3, 0, 0⟩ 3 (by norm_num [dot3]) (by norm_num),
    normalize3_eval ⟨1 / 3, 0, 0⟩ (1 / 3) (by norm_num [dot3]) (by norm_num)]
  norm_num [dot3]

lemma rot_xthird_xthird :
    rotation_matrix3 ⟨1 / 3, 0, 0⟩ ⟨1 / 3, 0, 0⟩ = Except.ok identityMatrix3 := by
  unfold rotation_matrix3
  rw [normalize3_eval ⟨1 / 3, 0, 0⟩ (1 / 3) (by norm_num [dot3]) (by norm_num)]
  norm_num [dot3]

lemma rot_xthird_x3 :
    rotation_matrix3 ⟨1 / 3, 0, 0⟩ ⟨3, 0, 0⟩ = Except.ok identityMatrix3 := by
  unfold rotation_matrix3
  rw [normalize3_eval ⟨1 / 3, 0, 0⟩ (1 / 3) (by norm_num [dot3]) (by norm_num),
    normalize3_eval ⟨3, 0, 0⟩ 3 (by norm_num [dot3]) (by norm_num)]
  norm_num [dot3]

lemma rot_x_zerovec :
    rotation_matrix3 ⟨1, 0, 0⟩ ⟨0, 0, 0⟩ = Except.error "Zero-length vector" := by
  unfold rotation_matrix3
  rw [normalize3_eval ⟨1, 0, 0⟩ 1 (by norm_num [dot3]) (by norm_num), normalize3_zero]

lemma ex_allTangents :
    allTangents3 exPts 0 1 =
      Except.ok [⟨3, 0, 0⟩, ⟨1 / 3, 0, 0⟩, ⟨1 / 3, 0, 0⟩, ⟨3, 0, 0⟩] := by
  simp only [allTangents3, getCtrl3, exPts, List.get?]
  norm_num [segTangents3, bezier_derivative3]

lemma pbz_make :
    PolyBezier3.make exPts true =
      Except.ok ⟨exPts, [pl3F0, pl3F0, pl3F0, pl3F0], true⟩ := by
  unfold PolyBezier3.make
  rw [if_neg (by norm_num [exPts]), if_neg (by norm_num [exPts])]
  rw [show (exPts.length - 1) / 3 = 1 by norm_num [exPts]]
  rw [ex_allTangents]
  simp only [bishopLoop3]
  rw [rot_z_x3, rot_x3_xthird, rot_xthird_xthird, rot_xthird_x3]
  simp only [multiply3, col0, col1, col2, dot3]
  refine congrArg Except.ok ?_
  norm_num [identityMatrix3, pl3F0]

lemma find_bezier_4_half : find_bezier 4 (1 / 2) = (0, 1 / 2) := by
  unfold find_bezier
  norm_num

lemma ex_get_frame_half :
    (PolyBezier3.mk exPts [pl3F0, pl3F0, pl3F0, pl3F0] true).get_frame 0 (1 / 2) =
      Except.error "Zero-length vector" := by
  unfold PolyBezier3.get_frame
  rw [show (0 * 4 + (⌊(1 / 2 : Scalar) * (3 : Scalar)⌋.toNat)) = 1 by
    norm_num [Int.floor_eq_iff]]
  simp only [List.get?, vec3Entry, pl3F0, getCtrl3, exPts]
  rw [show bezier_derivative3 ⟨0, 0, 0⟩ ⟨1, 0, 0⟩ ⟨0, 0, 0⟩ ⟨1, 0, 0⟩ (1 / 2) =
    ⟨0, 0, 0⟩ by norm_num [bezier_derivative3]]
  rw [rot_x_zerovec]

/-- C1 counterexample: the orientation-tracking PolyBezier with control
points `(0,0,0), (1,0,0), (0,0,0), (1,0,0)` constructs successfully, yet
evaluating `transform` at the in-range parameter `t = 1/2` — where the
curve tangent is exactly the zero vector — propagates the
"Zero-length vector" exception thrown by `normalize` inside `get_frame`,
instead of returning a zero vector or zero matrix. -/
theorem c1_polybezier_zero_tangent_throws :
    PolyBezier3.make exPts true =
      Except.ok ⟨exPts, [pl3F0, pl3F0, pl3F0, pl3F0], true⟩ ∧
    (PolyBezier3.mk exPts [pl3F0, pl3F0, pl3F0, pl3F0] true).transform ⟨0, 0, 0⟩ (1 / 2) =
      Except.error "Zero-length vector" := by
  refine ⟨pbz_make, ?_⟩
  unfold PolyBezier3.transform
  rw [show (PolyBezier3.mk exPts [pl3F0, pl3F0, pl3F0, pl3F0] true).points.length = 4 by
    norm_num [exPts]]
  rw [find_bezier_4_half]
  simp [show getCtrl3 (PolyBezier3.mk exPts [pl3F0, pl3F0, pl3F0, pl3F0] true).points 0 =
      Except.ok (⟨0, 0, 0⟩, ⟨1, 0, 0⟩, ⟨0, 0, 0⟩, ⟨1, 0, 0⟩) from by
        simp [getCtrl3, exPts, List.get?]]
  rw [show (2⁻¹ : Scalar) = 1 / 2 by norm_num, ex_get_frame_half]

lemma find_bezier_4_43 : find_bezier 4 (4 / 3) = (0, 4 / 3) := by
  unfold find_bezier
  norm_num [Int.floor_eq_iff]

lemma ex_get_frame_43 :
    (PolyBezier3.mk exPts [pl3F0, pl3F0, pl3F0, pl3F0] true).get_frame 0 (4 / 3) =
      Except.error "frame index out of range" := by
  unfold PolyBezier3.get_frame
  rw [show (0 * 4 + (⌊(4 / 3 : Scalar) * (3 : Scalar)⌋.toNat)) = 4 by
    norm_num
    decide]
  simp only [List.get?]

/-- C3: evaluating the same successfully-constructed single-segment
PolyBezier at the out-of-range parameter `t = 4/3` selects the last (and
only) segment with extrapolated local `alpha = 4/3`, but `get_frame`
computes `frame_index = segment * 4 + (size_t)(alpha * 3) = 4` into its
4-entry frame table (valid indices 0..3) — an out-of-range array access,
contradicting the claim that no internal array access is out of range for
any real `t`. -/
theorem c3_polybezier_extrapolation_frame_index_oob :
    PolyBezier3.make exPts true =
      Except.ok ⟨exPts, [pl3F0, pl3F0, pl3F0, pl3F0], true⟩ ∧
    find_bezier 4 (4 / 3) = (0, 4 / 3) ∧
    (PolyBezier3.mk exPts [pl3F0, pl3F0, pl3F0, pl3F0] true).transform ⟨0, 0, 0⟩ (4 / 3) =
      Except.error "frame index out of range" := by
  refine ⟨pbz_make, find_bezier_4_43, ?_⟩
  unfold PolyBezier3.transform
  rw [show (PolyBezier3.mk exPts [pl3F0, pl3F0, pl3F0, pl3F0] true).points.length = 4 by
    norm_num [exPts]]
  rw [find_bezier_4_43]
  simp [show getCtrl3 (PolyBezier3.mk exPts [pl3F0, pl3F0, pl3F0, pl3F0] true).points 0 =
      Except.ok (⟨0, 0, 0⟩, ⟨1, 0, 0⟩, ⟨0, 0, 0⟩, ⟨1, 0, 0⟩) from by
        simp [getCtrl3, exPts, List.get?],
    ex_get_frame_43]

end
